import Mathlib

set_option maxHeartbeats 1000000

/- Shallow embedding of the ACME client (src/acme): the JSON codec and JWS
   signing layer (util.rs), response extraction (util.rs), the directory,
   account and order exchanges (acc.rs), the end-to-end driver (lib.rs) and
   the CLI persistence layer (bin.rs), together with theorems settling the
   claims about nonce propagation, JWS construction, error handling and
   file output. -/

/-- Byte strings are lists of naturals below 256. -/
abbrev Bytes := List Nat

abbrev Nonce := String

abbrev Certificate := String

/-- Model of serde_json::Value as built by the json! macro in acc.rs and
util.rs: null, booleans, integers, strings, arrays and objects given as
association lists. -/
inductive Json where
  | null : Json
  | bool (b : Bool) : Json
  | num (n : Int) : Json
  | str (s : String) : Json
  | arr (elems : List Json) : Json
  | obj (fields : List (String × Json)) : Json

mutual

/-- Boolean equality on Json values, mirroring PartialEq on
serde_json::Value; used by jws for the payload equality test with the empty
JSON string. -/
def Json.beq : Json → Json → Bool
  | .null, .null => true
  | .bool a, .bool b => a == b
  | .num a, .num b => a == b
  | .str a, .str b => a == b
  | .arr xs, .arr ys => Json.beqList xs ys
  | .obj xs, .obj ys => Json.beqFields xs ys
  | _, _ => false

def Json.beqList : List Json → List Json → Bool
  | [], [] => true
  | x :: xs, y :: ys => Json.beq x y && Json.beqList xs ys
  | _, _ => false

def Json.beqFields : List (String × Json) → List (String × Json) → Bool
  | [], [] => true
  | (k, v) :: xs, (l, w) :: ys => k == l && Json.beq v w && Json.beqFields xs ys
  | _, _ => false

end

/-- Byte-wise (here char-wise, all content is ASCII) strict order on strings,
the order a BTreeMap of serde_json uses for its keys. -/
def charListLt : List Char → List Char → Bool
  | [], [] => false
  | [], _ :: _ => true
  | _ :: _, [] => false
  | a :: as, b :: bs =>
      if a.toNat < b.toNat then true
      else if b.toNat < a.toNat then false
      else charListLt as bs

def strLtB (a b : String) : Bool := charListLt a.data b.data

/-- Insertion of one field into a key-sorted field list. -/
def insertField (x : String × Json) : List (String × Json) → List (String × Json)
  | [] => [x]
  | y :: ys => if strLtB y.1 x.1 then y :: insertField x ys else x :: y :: ys

/-- Sorting of object fields by key, as the BTreeMap underlying
serde_json::Map stores them. -/
def sortFields : List (String × Json) → List (String × Json)
  | [] => []
  | x :: xs => insertField x (sortFields xs)

mutual

/-- Recursive normalisation putting every object of a Json value into the
sorted key order in which serde_json holds and serialises it. -/
def sortKeysJ : Json → Json
  | .obj fs => .obj (sortFields (sortKeysF fs))
  | .arr xs => .arr (sortKeysL xs)
  | j => j

def sortKeysL : List Json → List Json
  | [] => []
  | x :: xs => sortKeysJ x :: sortKeysL xs

def sortKeysF : List (String × Json) → List (String × Json)
  | [] => []
  | (k, v) :: xs => (k, sortKeysJ v) :: sortKeysF xs

end

def hexDigit (n : Nat) : Char := "0123456789abcdef".data.getD n '0'

/-- Escaping of one character inside a JSON string literal, as serde_json
writes it. -/
def escapeChar (c : Char) : String :=
  if c == '"' then "\\\""
  else if c == '\\' then "\\\\"
  else if c == '\n' then "\\n"
  else if c == '\r' then "\\r"
  else if c == '\t' then "\\t"
  else if c.toNat == 8 then "\\b"
  else if c.toNat == 12 then "\\f"
  else if c.toNat < 32 then
    "\\u00" ++ String.mk [hexDigit (c.toNat / 16), hexDigit (c.toNat % 16)]
  else String.singleton c

def escapeString (s : String) : String := String.join (s.data.map escapeChar)

def jsonStrLit (s : String) : String := "\"" ++ escapeString s ++ "\""

def spaces (n : Nat) : String := String.mk (List.replicate n ' ')

mutual

/-- Pretty printer for Json at a given indentation, following the format of
serde_json::to_string_pretty: two-space indentation, a newline after every
opening bracket and before every closing one, and compact empty collections. -/
def serPretty (ind : Nat) : Json → String
  | .null => "null"
  | .bool b => if b then "true" else "false"
  | .num n => toString n
  | .str s => jsonStrLit s
  | .arr [] => "[]"
  | .arr (x :: xs) =>
      "[\n" ++ serArrItems (ind + 2) x xs ++ "\n" ++ spaces ind ++ "]"
  | .obj [] => "\x7b\x7d"
  | .obj ((k, v) :: fs) =>
      "\x7b\n" ++ serObjItems (ind + 2) k v fs ++ "\n" ++ spaces ind ++ "\x7d"
termination_by j => sizeOf j

/-- Rendering of the items of a nonempty array, one per line. -/
def serArrItems (ind : Nat) (x : Json) : List Json → String
  | [] => spaces ind ++ serPretty ind x
  | y :: ys => spaces ind ++ serPretty ind x ++ ",\n" ++ serArrItems ind y ys
termination_by ys => sizeOf x + sizeOf ys

/-- Rendering of the fields of a nonempty object, one per line. -/
def serObjItems (ind : Nat) (k : String) (v : Json) : List (String × Json) → String
  | [] => spaces ind ++ jsonStrLit k ++ ": " ++ serPretty ind v
  | (l, w) :: gs =>
      spaces ind ++ jsonStrLit k ++ ": " ++ serPretty ind v ++ ",\n" ++
        serObjItems ind l w gs
termination_by gs => sizeOf v + sizeOf gs

end

/-- Model of serde_json::to_string_pretty on a Value: keys are first put in
the sorted order the underlying map keeps them in, then pretty printed. -/
def to_string_pretty (j : Json) : String := serPretty 0 (sortKeysJ j)

/-- UTF-8 bytes of a string; all strings handled by the client are ASCII, for
which the code points are the bytes. -/
def strBytes (s : String) : Bytes := s.data.map Char.toNat

/-- Lookup of a field of a Json object, none on non-objects. -/
def lookupField : List (String × Json) → String → Option Json
  | [], _ => none
  | (k, v) :: fs, key => if k = key then some v else lookupField fs key

def jsonGet : Json → String → Option Json
  | .obj fs, key => lookupField fs key
  | _, _ => none

/-- Alphabet of base64url (RFC 4648 section 5). -/
def b64Alphabet : List Char :=
  "ABCDEFGHIJKLMNOPQRSTUVWXYZabcdefghijklmnopqrstuvwxyz0123456789-_".data

def b64Char (n : Nat) : Char := b64Alphabet.getD n 'A'

/-- Base64url encoding of a byte list, three bytes to four characters, the
final one or two bytes to two or three characters and no padding, as
base64::encode_config with URL_SAFE_NO_PAD produces. -/
def b64Chunks : Bytes → List Char
  | a :: b :: c :: rest =>
      b64Char (a / 4) :: b64Char (a % 4 * 16 + b / 16) ::
        b64Char (b % 16 * 4 + c / 64) :: b64Char (c % 64) :: b64Chunks rest
  | [a, b] => [b64Char (a / 4), b64Char (a % 4 * 16 + b / 16), b64Char (b % 16 * 4)]
  | [a] => [b64Char (a / 4), b64Char (a % 4 * 16)]
  | [] => []

/-- Model of util.rs b64: base64url without padding. -/
def b64 (bytes : Bytes) : String := String.mk (b64Chunks bytes)

/-- RSA private key as the numbers openssl holds: modulus, public exponent,
private exponent. -/
structure RsaPrivate where
  n : Nat
  e : Nat
  d : Nat
deriving DecidableEq

/-- RSA public key: modulus and public exponent. -/
structure RsaPublic where
  n : Nat
  e : Nat
deriving DecidableEq

/-- Public half of a private key. -/
def RsaPrivate.publicHalf (k : RsaPrivate) : RsaPublic := ⟨k.n, k.e⟩

/-- Length in bytes of the big-endian representation of a natural number,
zero for zero, as BN_num_bytes computes it. -/
def byteLen : Nat → Nat
  | 0 => 0
  | n + 1 => byteLen ((n + 1) / 256) + 1
decreasing_by exact Nat.div_lt_self (Nat.succ_pos n) (by decide)

/-- Big-endian bytes of a natural number at a fixed width. -/
def natToBytesBE : Nat → Nat → Bytes
  | 0, _ => []
  | k + 1, x => natToBytesBE k (x / 256) ++ [x % 256]

/-- Minimal big-endian bytes of a natural number, as BN_bn2bin produces
(empty for zero). -/
def natToBytesMin (n : Nat) : Bytes := natToBytesBE (byteLen n) n

/-- RSA private-key operation on a message representative. -/
def rsaSignNum (key : RsaPrivate) (m : Nat) : Nat := m ^ key.d % key.n

/-- RSA verification of a signature representative s against a message
representative m under a public key. -/
def rsaVerifyNum (pub : RsaPublic) (m s : Nat) : Bool :=
  decide (s ^ pub.e % pub.n = m % pub.n)

/-- Model of the openssl Signer of util.rs jws (MessageDigest sha256 with
PKCS1 padding): digest is the abstract EMSA-PKCS1-v1_5 SHA-256 message
encoding, an external openssl primitive kept as a parameter, and the
signature is its RSA private-key operation rendered as big-endian bytes of
the modulus width, as sign_to_vec returns them. -/
def rsaSha256Sign (digest : Bytes → Nat) (key : RsaPrivate) (msg : Bytes) : Bytes :=
  natToBytesBE (byteLen key.n) (rsaSignNum key (digest msg))

/-- Model of util.rs jwk: the public modulus and exponent of the key as
minimal big-endian bytes, base64url encoded, in an RSA JWK object. -/
def jwk (key : RsaPrivate) : Json :=
  Json.obj [("kty", .str "RSA"),
            ("n", .str (b64 (natToBytesMin key.n))),
            ("e", .str (b64 (natToBytesMin key.e)))]

/-- Model of util.rs jws. The empty-payload test is payload equality with the
empty JSON string; payload and header are serialised with to_string_pretty
and base64url encoded; the signing input drops the payload component when
the payload is empty; the object carries the encoded header, the encoded
payload or the empty string, and the encoded signature. -/
def jws (digest : Bytes → Nat) (payload header : Json) (private_key : RsaPrivate) : Json :=
  let empty_payload := Json.beq payload (Json.str "")
  let payload64 := b64 (strBytes (to_string_pretty payload))
  let header64 := b64 (strBytes (to_string_pretty header))
  let signing_input := if empty_payload then header64 ++ "." else header64 ++ "." ++ payload64
  let signature := b64 (rsaSha256Sign digest private_key (strBytes signing_input))
  Json.obj [("protected", .str header64),
            ("payload", .str (if empty_payload then "" else payload64)),
            ("signature", .str signature)]

/-- Error taxonomy of error.rs. The variants carrying wrapped library errors
in the source (Utf8, reqwest, openssl, serde, header, io) are modelled as
plain constructors since their payloads do not matter to any claim. -/
inductive Error where
  | AccountDoesNotExist
  | AlreadyRevokedCertificate
  | BadCSR
  | BadNonce
  | BadPublicKey
  | BadRevocationReason
  | BadSignatureAlgorithm
  | CaaError
  | Compound
  | Connection
  | DnsError
  | ExternalAccountRequired
  | IncorrectResponse
  | InvalidContact
  | MalformedRequest
  | OrderNotReady
  | RateLimited
  | RejectedIdentifier
  | InternalServerError
  | TlsError
  | Unauthorized
  | UnsupportedContact
  | UnsupportedIdentifier
  | UserActionRequired
  | FromUtf8Error
  | FromReqwestError
  | FromRsaError
  | FromSerdeError
  | FromToStrError
  | FromIoError
  | NoHttpChallengePresent
  | NoWebServer
deriving DecidableEq

/-- View of a reqwest blocking Response as the extraction layer of util.rs
reads it: the optional replay-nonce header, the optional Location header, and
the typed result of deserialising the JSON body (an Error value when the
deserialisation or transport read fails). -/
structure HttpResponse (α : Type) where
  replayNonce : Option Nonce
  location : Option String
  body : Except Error α

/-- Model of util.rs extract_payload_and_nonce: the replay-nonce header is
required, its absence is Error.IncorrectResponse; then the body must
deserialise; the pair is returned in the order (nonce, payload). -/
def extract_payload_and_nonce {α : Type} (response : HttpResponse α) :
    Except Error (Nonce × α) :=
  match response.replayNonce with
  | none => .error .IncorrectResponse
  | some nonce =>
      match response.body with
      | .error e => .error e
      | .ok payload => .ok (nonce, payload)

/-- Model of util.rs extract_payload_location_and_nonce: replay-nonce and
Location headers are both required, either absence is
Error.IncorrectResponse; the triple is returned in the order
(nonce, payload, location), exactly as the source builds it. -/
def extract_payload_location_and_nonce {α : Type} (response : HttpResponse α) :
    Except Error (Nonce × α × String) :=
  match response.replayNonce with
  | none => .error .IncorrectResponse
  | some nonce =>
      match response.location with
      | none => .error .IncorrectResponse
      | some location =>
          match response.body with
          | .error e => .error e
          | .ok payload => .ok (nonce, payload, location)

/-- Status enumeration of acc.rs. -/
inductive StatusType where
  | Valid
  | Pending
  | Invalid
deriving DecidableEq

/-- Directory struct of acc.rs: the five endpoint URLs from the CA plus the
serde-skipped session nonce. -/
structure Directory where
  new_nonce : String
  new_account : String
  new_order : String
  revoke_cert : String
  key_change : String
  nonce : Nonce
deriving DecidableEq

/-- Account struct of acc.rs: CA fields plus the serde-skipped nonce and
account_location. -/
structure Account where
  status : String
  contact : Option (List String)
  terms_of_service_agreed : Option Bool
  orders : Option (List String)
  nonce : Nonce
  account_location : String
deriving DecidableEq

/-- Model of an openssl X509Req as this client uses it: the subject common
name, the embedded public key, the key that signed the request and the
message digest name. request_csr in acc.rs sets exactly these. -/
structure X509Req where
  subject_cn : String
  public_key : RsaPublic
  signing_key : RsaPrivate
  digest_name : String
deriving DecidableEq

/-- Modelled from the spec: the Order struct declaration is absent from src
(acc.rs ends before it); its fields follow the data-model section of the
spec and the uses in acc.rs — the status, the list of authorization URLs,
the finalize URL, the optional certificate URL, the serde-skipped session
nonce and the optional pre-supplied CSR. -/
structure Order where
  status : StatusType
  authorizations : List String
  finalize : String
  certificate : Option String
  nonce : Nonce
  optional_csr : Option X509Req
deriving DecidableEq

/-- Modelled from the spec: the ChallengeAuthorisation struct declaration is
absent from src (acc.rs TODO); fields follow the spec — the challenge type,
token, challenge URL, status, and the serde-skipped session nonce that
fetch_auth_challenges overwrites. -/
structure ChallengeAuthorisation where
  ctype : String
  token : String
  url : String
  status : StatusType
  nonce : Nonce
deriving DecidableEq

/-- Modelled from the spec: the UpdatedOrder struct declaration is absent
from src (acc.rs TODO); fields follow the spec — the post-finalization
status, the certificate download URL once valid, and the session nonce. -/
structure UpdatedOrder where
  status : StatusType
  certificate : Option String
  nonce : Nonce
deriving DecidableEq

/-- One HTTP request as this client issues it. The fields method, url,
contentType, accept and body are what goes on the wire (body is the JWS
value that the source serialises with to_string_pretty into the POST body);
jwsHeader, jwsPayload and signedWith are ghost instrumentation recording the
arguments the step handed to the jws signing layer, so that theorems can
speak about the header and key of a signed request without re-parsing the
body. -/
structure AcmeRequest where
  method : String
  url : String
  contentType : Option String
  accept : Option String
  body : Option Json
  jwsHeader : Option Json
  jwsPayload : Option Json
  signedWith : Option RsaPrivate

def getRequest (url : String) : AcmeRequest :=
  ⟨"GET", url, none, none, none, none, none, none⟩

def headRequest (url : String) : AcmeRequest :=
  ⟨"HEAD", url, none, none, none, none, none, none⟩

/-- POST of a JWS body with content-type application/jose+json, recording
the signing arguments in the ghost fields. -/
def postJws (url : String) (digest : Bytes → Nat) (payload header : Json)
    (key : RsaPrivate) (accept : Option String) : AcmeRequest :=
  { method := "POST", url := url, contentType := some "application/jose+json",
    accept := accept, body := some (jws digest payload header key),
    jwsHeader := some header, jwsPayload := some payload, signedWith := some key }

/-- Model of Directory.fetch_dir in acc.rs: a GET of the directory document,
then a HEAD of the new_nonce endpoint whose replay-nonce header seeds the
session nonce; a missing header there is Error.BadNonce. The directory body
and the HEAD response stand in for the two network exchanges. -/
def Directory.fetch_dir (server_url : String) (dirBody : Except Error Directory)
    (headResp : HttpResponse Unit) : List AcmeRequest × Except Error Directory :=
  match dirBody with
  | .error e => ([getRequest server_url], .error e)
  | .ok dir_infos =>
      ([getRequest server_url, headRequest dir_infos.new_nonce],
        match headResp.replayNonce with
        | none => .error .BadNonce
        | some nonce => .ok { dir_infos with nonce := nonce })

/-- Model of Directory.create_account in acc.rs: a JWS with the jwk header
and the directory nonce, POSTed to new_account, then the triple extracted by
extract_payload_location_and_nonce. The source call site destructures that
extractor result, whose order is (nonce, payload, location), with the
pattern (location, nonce, account) annotated (String, Nonce, Account), which
does not type-check against (Nonce, Account, String); the embedding follows
the declared intent of the fields, storing the extracted nonce in nonce and
the extracted Location header in account_location. -/
def Directory.create_account (dir : Directory) (digest : Bytes → Nat)
    (p_key : RsaPrivate) (email : String) (response : HttpResponse Account) :
    List AcmeRequest × Except Error Account :=
  let header := Json.obj [("alg", .str "RS256"), ("url", .str dir.new_account),
                          ("jwk", jwk p_key), ("nonce", .str dir.nonce)]
  let payload := Json.obj [("termsOfServiceAgreed", .bool true),
                           ("contact", .arr [.str ("mailto:" ++ email)])]
  ([postJws dir.new_account digest payload header p_key none],
    match extract_payload_location_and_nonce response with
    | .error e => .error e
    | .ok (nonce, account, location) =>
        .ok { account with nonce := nonce, account_location := location })

/-- Model of Account.create_new_order in acc.rs: a JWS whose header carries
kid and the account nonce and whose payload holds the dns identifier for the
domain, POSTed to the new_order URL; on success the extracted nonce
overwrites the order nonce and the optional CSR is stored on the order. -/
def Account.create_new_order (acc : Account) (new_order_url : String)
    (digest : Bytes → Nat) (p_key : RsaPrivate) (domain : String)
    (optional_csr : Option X509Req) (response : HttpResponse Order) :
    List AcmeRequest × Except Error Order :=
  let header := Json.obj [("alg", .str "RS256"), ("url", .str new_order_url),
                          ("kid", .str acc.account_location), ("nonce", .str acc.nonce)]
  let payload := Json.obj [("identifiers",
      .arr [Json.obj [("type", .str "dns"), ("value", .str domain)]])]
  ([postJws new_order_url digest payload header p_key none],
    match extract_payload_and_nonce response with
    | .error e => .error e
    | .ok (nonce, order) =>
        .ok { order with nonce := nonce, optional_csr := optional_csr })

/-- Model of Order.fetch_auth_challenges in acc.rs: the first URL of the
authorizations list is taken (Error.NoHttpChallengePresent when the list is
empty, raised before any request is sent), then one empty-payload JWS is
POSTed to that URL only, and the extracted nonce overwrites the challenge
nonce. -/
def Order.fetch_auth_challenges (order : Order) (account_url : String)
    (digest : Bytes → Nat) (p_key : RsaPrivate)
    (response : HttpResponse ChallengeAuthorisation) :
    List AcmeRequest × Except Error ChallengeAuthorisation :=
  match order.authorizations with
  | [] => ([], .error .NoHttpChallengePresent)
  | auth_url :: _ =>
      let header := Json.obj [("alg", .str "RS256"), ("url", .str auth_url),
                              ("kid", .str account_url), ("nonce", .str order.nonce)]
      let payload := Json.str ""
      ([postJws auth_url digest payload header p_key none],
        match extract_payload_and_nonce response with
        | .error e => .error e
        | .ok (nonce, challenge) => .ok { challenge with nonce := nonce })

/-- Model of Order.request_csr in acc.rs: a PKCS#10 request whose subject
common name is the given name, whose public key is the public half of the
keypair, signed with the private half under SHA-256. -/
def Order.request_csr (keypair : RsaPrivate × RsaPublic) (common_name : String) :
    X509Req :=
  { subject_cn := common_name, public_key := keypair.2,
    signing_key := keypair.1, digest_name := "sha256" }

/-- Model of Order.finalize_order in acc.rs: the caller-passed new_nonce goes
into the JWS header, the CSR is the pre-supplied one or a fresh request_csr
for the domain, its DER bytes (the external openssl encoder is the der
parameter) are base64url encoded into the csr payload, and the JWS is POSTed
to the finalize URL with Accept application/pem-certificate-chain; the
extracted nonce overwrites the updated-order nonce. -/
def Order.finalize_order (order : Order) (account_url : String) (new_nonce : Nonce)
    (digest : Bytes → Nat) (p_key : RsaPrivate)
    (cert_keypair : RsaPrivate × RsaPublic) (domain : String)
    (der : X509Req → Bytes) (response : HttpResponse UpdatedOrder) :
    List AcmeRequest × Except Error UpdatedOrder :=
  let header := Json.obj [("alg", .str "RS256"), ("url", .str order.finalize),
                          ("kid", .str account_url), ("nonce", .str new_nonce)]
  let csr := match order.optional_csr with
    | some csr => csr
    | none => Order.request_csr cert_keypair domain
  let csr_string := b64 (der csr)
  let payload := Json.obj [("csr", .str csr_string)]
  ([postJws order.finalize digest payload header p_key
      (some "application/pem-certificate-chain")],
    match extract_payload_and_nonce response with
    | .error e => .error e
    | .ok (nonce, updated_order) => .ok { updated_order with nonce := nonce })

/-- Modelled from the spec: solve_http_challenge is absent from src (acc.rs
TODO). Per the spec it signals readiness with one empty-payload JWS POST to
the challenge URL, header carrying kid and the stored challenge nonce, and
hands the nonce of the response onward for finalization; the polling loop
and the standalone responder are omitted as no claim depends on them. -/
def solve_http_challenge (challenge : ChallengeAuthorisation) (account_url : String)
    (digest : Bytes → Nat) (p_key : RsaPrivate) (response : HttpResponse Unit) :
    List AcmeRequest × Except Error Nonce :=
  let header := Json.obj [("alg", .str "RS256"), ("url", .str challenge.url),
                          ("kid", .str account_url), ("nonce", .str challenge.nonce)]
  let payload := Json.str ""
  ([postJws challenge.url digest payload header p_key none],
    match extract_payload_and_nonce response with
    | .error e => .error e
    | .ok (nonce, _) => .ok nonce)

/-- Modelled from the spec: download_certificate is absent from src (acc.rs
TODO). Per the spec it is one empty-payload JWS POST-as-GET to the
certificate URL of the valid updated order, returning the PEM chain body
as-is. -/
def download_certificate (updated_order : UpdatedOrder) (account_url : String)
    (digest : Bytes → Nat) (p_key : RsaPrivate)
    (response : Except Error Certificate) :
    List AcmeRequest × Except Error Certificate :=
  match updated_order.certificate with
  | none => ([], .error .IncorrectResponse)
  | some cert_url =>
      let header := Json.obj [("alg", .str "RS256"), ("url", .str cert_url),
                              ("kid", .str account_url),
                              ("nonce", .str updated_order.nonce)]
      let payload := Json.str ""
      ([postJws cert_url digest payload header p_key none], response)

/-- KEY_WIDTH constant of lib.rs. -/
def KEY_WIDTH : Nat := 2048

/-- Script of the responses one session receives, standing in for the
network: the directory body and nonce HEAD of fetch_dir, then one response
per subsequent exchange. -/
structure SessionScript where
  dirBody : Except Error Directory
  nonceHead : HttpResponse Unit
  accountResp : HttpResponse Account
  orderResp : HttpResponse Order
  challengeResp : HttpResponse ChallengeAuthorisation
  solveResp : HttpResponse Unit
  finalizeResp : HttpResponse UpdatedOrder
  downloadResp : Except Error Certificate

/-- Model of generate_certificate_for_domain in lib.rs: a fresh account key
(the freshKey parameter stands for the output of generate_rsa_key, whose
width argument is KEY_WIDTH) signs every exchange; the caller keypair_for_cert
enters only finalize_order for the CSR. Steps run strictly in order; the
first error stops the run and is returned with the requests issued so far;
no step is ever reissued. Logging and the standalone flag of the source do
not affect the exchanges and are omitted. -/
def generate_certificate_for_domain (keypair_for_cert : RsaPrivate × RsaPublic)
    (optional_csr : Option X509Req) (domain server email : String)
    (freshKey : RsaPrivate) (digest : Bytes → Nat) (der : X509Req → Bytes)
    (s : SessionScript) : List AcmeRequest × Except Error Certificate :=
  let st1 := Directory.fetch_dir server s.dirBody s.nonceHead
  match st1.2 with
  | .error e => (st1.1, .error e)
  | .ok dir_infos =>
      let st2 := Directory.create_account dir_infos digest freshKey email s.accountResp
      match st2.2 with
      | .error e => (st1.1 ++ st2.1, .error e)
      | .ok new_acc =>
          let st3 := Account.create_new_order new_acc dir_infos.new_order digest
              freshKey domain optional_csr s.orderResp
          match st3.2 with
          | .error e => (st1.1 ++ st2.1 ++ st3.1, .error e)
          | .ok order =>
              let st4 := Order.fetch_auth_challenges order new_acc.account_location
                  digest freshKey s.challengeResp
              match st4.2 with
              | .error e => (st1.1 ++ st2.1 ++ st3.1 ++ st4.1, .error e)
              | .ok challenge =>
                  let st5 := solve_http_challenge challenge new_acc.account_location
                      digest freshKey s.solveResp
                  match st5.2 with
                  | .error e => (st1.1 ++ st2.1 ++ st3.1 ++ st4.1 ++ st5.1, .error e)
                  | .ok new_nonce =>
                      let st6 := Order.finalize_order order new_acc.account_location
                          new_nonce digest freshKey keypair_for_cert domain der
                          s.finalizeResp
                      match st6.2 with
                      | .error e =>
                          (st1.1 ++ st2.1 ++ st3.1 ++ st4.1 ++ st5.1 ++ st6.1, .error e)
                      | .ok updated_order =>
                          let st7 := download_certificate updated_order
                              new_acc.account_location digest freshKey s.downloadResp
                          (st1.1 ++ st2.1 ++ st3.1 ++ st4.1 ++ st5.1 ++ st6.1 ++ st7.1,
                            st7.2)

/-- Splitting a string into lines with the semantics of the Rust str lines
iterator: split on the newline character, drop a final empty piece produced
by a trailing newline, and strip one trailing carriage return from each
line. -/
def rustLines (s : String) : List String :=
  let parts := s.splitOn "\n"
  let parts := match parts.getLast? with
    | some last => if last = "" then parts.dropLast else parts
    | none => parts
  parts.map (fun l => if l.endsWith "\r" then l.dropRight 1 else l)

/-- Model of util.rs save_certificates as the list of file writes it
performs: my_cert.crt receives the lines of the chain up to the first empty
line, each with a CRLF appended, and cert_chain.crt receives the chain
verbatim. -/
def save_certificates (certificate_chain : Certificate) : List (String × String) :=
  let cert_me := String.join
    (((rustLines certificate_chain).takeWhile (fun line => line != "")).map
      (fun line => line ++ "\r\n"))
  [("my_cert.crt", cert_me), ("cert_chain.crt", certificate_chain)]

/-- Model of util.rs save_keypair as the list of file writes it performs;
the PEM encoders of openssl are the privPem and pubPem parameters. -/
def save_keypair (privPem : RsaPrivate → String) (pubPem : RsaPublic → String)
    (keypair : RsaPrivate × RsaPublic) : List (String × String) :=
  [("priv.pem", privPem keypair.1), ("pub.pem", pubPem keypair.2)]

/-- Command-line arguments of bin.rs. -/
structure Args where
  email : String
  domain : String
  private_key : Option String
  public_key : Option String
  server : Option String
  standalone : Bool
  csr_path : Option String
  verbose : Bool

/-- Outcome of a bin.rs main run: a clap usage-error exit, a panic out of an
expect call, or normal completion. -/
inductive MainOutcome where
  | usageExit
  | panicked
  | finished
deriving DecidableEq

def LETS_ENCRYPT_SERVER : String := "https://acme-v02.api.letsencrypt.org/directory"

def LETS_ENCRYPT_STAGING : String := "https://acme-staging-v02.api.letsencrypt.org/directory"

/-- Model of bin.rs main (named bin_main since Lean reserves main) as a function from the arguments and the injected
environment (the results of loading or generating key material, of loading
the CSR, the port-80 probe, and the session script consumed by the driver)
to the outcome and the list of file writes performed. Source order is kept:
the CSR-without-keypair conflict check, keypair resolution with its expect,
CSR loading with its expect, the standalone port conflict check, the driver
call with its expect, then save_certificates and, only when no public key
was supplied, save_keypair. Every failing expect panics before any file is
written. -/
def bin_main (args : Args)
    (loadedKeys generatedKeys : Except Error (RsaPrivate × RsaPublic))
    (loadedCsr : Except Error X509Req) (portBound : Bool)
    (freshKey : RsaPrivate) (digest : Bytes → Nat) (der : X509Req → Bytes)
    (privPem : RsaPrivate → String) (pubPem : RsaPublic → String)
    (script : SessionScript) : MainOutcome × List (String × String) :=
  if args.csr_path.isSome && (args.private_key.isNone || args.public_key.isNone) then
    (.usageExit, [])
  else
    let keypairRes : Option (Except Error (RsaPrivate × RsaPublic)) :=
      match args.private_key, args.public_key with
      | some _, some _ => some loadedKeys
      | some _, none => none
      | none, some _ => none
      | none, none => some generatedKeys
    match keypairRes with
    | none => (.usageExit, [])
    | some (.error _) => (.panicked, [])
    | some (.ok keypair_for_cert) =>
        let csrRes : Except Error (Option X509Req) :=
          match args.csr_path with
          | some _ =>
              match loadedCsr with
              | .error e => .error e
              | .ok csr => .ok (some csr)
          | none => .ok none
        match csrRes with
        | .error _ => (.panicked, [])
        | .ok optional_csr =>
            if args.standalone && portBound then (.usageExit, [])
            else
              let server := match args.server with
                | some url => url
                | none => LETS_ENCRYPT_SERVER
              match (generate_certificate_for_domain keypair_for_cert optional_csr
                  args.domain server args.email freshKey digest der script).2 with
              | .error _ => (.panicked, [])
              | .ok cert_chain =>
                  (.finished, save_certificates cert_chain ++
                    (if args.public_key.isNone then
                      save_keypair privPem pubPem keypair_for_cert
                    else []))

/-- Toy RSA key (n = 55, e = 3, d = 27) used by concrete witnesses; the
exponents satisfy e d = 81 = 1 + 4 phi-like period on the units of 55, so
the sign-then-verify round trip holds for every residue below 55. -/
def key55 : RsaPrivate := ⟨55, 3, 27⟩

/-- Toy digest function for concrete witnesses, always below the modulus of
key55. -/
def digest55 : Bytes → Nat := fun bs => (bs.foldl (fun a b => a + b) 0) % 55

/-- C2: for every private key and header, when the payload passed to the JWS
builder is the empty JSON string the emitted payload field is the empty
string, the protected field is the base64url of the serialised header, and
the signature is the RSA-SHA256 signature of exactly header64 followed by a
dot, with no payload64 component: it verifies under the public half of the
key against that signing input. -/
theorem jws_empty_payload_spec (digest : Bytes → Nat) (key : RsaPrivate) (header : Json)
    (hkey : ∀ m, m < key.n → (m ^ key.d % key.n) ^ key.e % key.n = m)
    (hdig : ∀ bs, digest bs < key.n) :
    jws digest (Json.str "") header key =
      Json.obj [("protected", .str (b64 (strBytes (to_string_pretty header)))),
                ("payload", .str ""),
                ("signature", .str (b64 (natToBytesBE (byteLen key.n)
                  (rsaSignNum key (digest (strBytes (b64 (strBytes (to_string_pretty header)) ++ ".")))))))]
    ∧ rsaVerifyNum key.publicHalf
        (digest (strBytes (b64 (strBytes (to_string_pretty header)) ++ ".")))
        (rsaSignNum key (digest (strBytes (b64 (strBytes (to_string_pretty header)) ++ ".")))) = true := by
  constructor
  · rfl
  · unfold rsaVerifyNum rsaSignNum RsaPrivate.publicHalf
    apply decide_eq_true
    have h1 := hdig (strBytes (b64 (strBytes (to_string_pretty header)) ++ "."))
    rw [Nat.mod_eq_of_lt h1]
    exact hkey _ h1

/-- Witness for C2 at the toy key, the sum digest and the null header. -/
theorem jws_empty_payload_spec_witness :
    jws digest55 (Json.str "") Json.null key55 =
      Json.obj [("protected", .str (b64 (strBytes (to_string_pretty Json.null)))),
                ("payload", .str ""),
                ("signature", .str (b64 (natToBytesBE (byteLen key55.n)
                  (rsaSignNum key55 (digest55 (strBytes (b64 (strBytes (to_string_pretty Json.null)) ++ ".")))))))]
    ∧ rsaVerifyNum key55.publicHalf
        (digest55 (strBytes (b64 (strBytes (to_string_pretty Json.null)) ++ ".")))
        (rsaSignNum key55 (digest55 (strBytes (b64 (strBytes (to_string_pretty Json.null)) ++ ".")))) = true :=
  jws_empty_payload_spec digest55 key55 Json.null (by decide)
    (fun bs => Nat.mod_lt _ (by decide))

/-- C3: for every payload other than the empty JSON string, the JWS object
carries the base64url of the serialised header as protected, the base64url
of the serialised payload as payload, and a signature over the byte string
protected then a dot then payload that verifies under the public half of
the key. -/
theorem jws_nonempty_payload_spec (digest : Bytes → Nat) (key : RsaPrivate)
    (payload header : Json)
    (hne : Json.beq payload (Json.str "") = false)
    (hkey : ∀ m, m < key.n → (m ^ key.d % key.n) ^ key.e % key.n = m)
    (hdig : ∀ bs, digest bs < key.n) :
    jws digest payload header key =
      Json.obj [("protected", .str (b64 (strBytes (to_string_pretty header)))),
                ("payload", .str (b64 (strBytes (to_string_pretty payload)))),
                ("signature", .str (b64 (natToBytesBE (byteLen key.n)
                  (rsaSignNum key (digest (strBytes (b64 (strBytes (to_string_pretty header)) ++ "." ++
                    b64 (strBytes (to_string_pretty payload)))))))))]
    ∧ rsaVerifyNum key.publicHalf
        (digest (strBytes (b64 (strBytes (to_string_pretty header)) ++ "." ++
          b64 (strBytes (to_string_pretty payload)))))
        (rsaSignNum key (digest (strBytes (b64 (strBytes (to_string_pretty header)) ++ "." ++
          b64 (strBytes (to_string_pretty payload)))))) = true := by
  constructor
  · simp only [jws, hne, if_neg, Bool.false_eq_true, ite_false]
    rfl
  · unfold rsaVerifyNum rsaSignNum RsaPrivate.publicHalf
    apply decide_eq_true
    have h1 := hdig (strBytes (b64 (strBytes (to_string_pretty header)) ++ "." ++
      b64 (strBytes (to_string_pretty payload))))
    rw [Nat.mod_eq_of_lt h1]
    exact hkey _ h1

/-- Witness for C3 at the toy key, the sum digest, the boolean true payload
and the null header. -/
theorem jws_nonempty_payload_spec_witness :
    jws digest55 (Json.bool true) Json.null key55 =
      Json.obj [("protected", .str (b64 (strBytes (to_string_pretty Json.null)))),
                ("payload", .str (b64 (strBytes (to_string_pretty (Json.bool true))))),
                ("signature", .str (b64 (natToBytesBE (byteLen key55.n)
                  (rsaSignNum key55 (digest55 (strBytes (b64 (strBytes (to_string_pretty Json.null)) ++ "." ++
                    b64 (strBytes (to_string_pretty (Json.bool true))))))))))]
    ∧ rsaVerifyNum key55.publicHalf
        (digest55 (strBytes (b64 (strBytes (to_string_pretty Json.null)) ++ "." ++
          b64 (strBytes (to_string_pretty (Json.bool true))))))
        (rsaSignNum key55 (digest55 (strBytes (b64 (strBytes (to_string_pretty Json.null)) ++ "." ++
          b64 (strBytes (to_string_pretty (Json.bool true))))))) = true :=
  jws_nonempty_payload_spec digest55 key55 (Json.bool true) Json.null rfl (by decide)
    (fun bs => Nat.mod_lt _ (by decide))

/-- Ghost view of the nonce field of the JWS protected header a request was
signed with. -/
def requestHeaderNonce (r : AcmeRequest) : Option Json :=
  match r.jwsHeader with
  | some h => jsonGet h "nonce"
  | none => none

/-- Concrete directory body as parsed from a directory document, before the
nonce is seeded. -/
def dirBody0 : Directory :=
  ⟨"https://ca/newNonce", "https://ca/newAcct", "https://ca/newOrder",
    "https://ca/revoke", "https://ca/keyChange", ""⟩

/-- Concrete directory after fetch_dir seeded nonce N1. -/
def dirC : Directory :=
  ⟨"https://ca/newNonce", "https://ca/newAcct", "https://ca/newOrder",
    "https://ca/revoke", "https://ca/keyChange", "N1"⟩

/-- Concrete HEAD response of the new-nonce endpoint carrying N1. -/
def headC : HttpResponse Unit := ⟨some "N1", none, .ok ()⟩

/-- Concrete account body as deserialised from the CA. -/
def acct0 : Account := ⟨"valid", none, none, none, "", ""⟩

/-- Concrete account after create_account stored nonce N2 and the Location
header. -/
def acctC : Account := ⟨"valid", none, none, none, "N2", "https://ca/acct/1"⟩

/-- Concrete account-creation response carrying nonce N2 and a Location. -/
def acctRespC : HttpResponse Account := ⟨some "N2", some "https://ca/acct/1", .ok acct0⟩

/-- Concrete order body with two authorization URLs. -/
def order0 : Order :=
  ⟨.Pending, ["https://ca/authz/1", "https://ca/authz/2"], "https://ca/finalize/1",
    none, "", none⟩

/-- Concrete order after create_new_order stored nonce N3. -/
def orderC : Order :=
  ⟨.Pending, ["https://ca/authz/1", "https://ca/authz/2"], "https://ca/finalize/1",
    none, "N3", none⟩

/-- Concrete new-order response carrying nonce N3. -/
def orderRespC : HttpResponse Order := ⟨some "N3", none, .ok order0⟩

/-- Concrete challenge body. -/
def chal0 : ChallengeAuthorisation := ⟨"http-01", "tok", "https://ca/chall/1", .Pending, ""⟩

/-- Concrete challenge after fetch_auth_challenges stored nonce N4. -/
def chalC : ChallengeAuthorisation := ⟨"http-01", "tok", "https://ca/chall/1", .Pending, "N4"⟩

/-- Concrete authorization-fetch response carrying nonce N4. -/
def chalRespC : HttpResponse ChallengeAuthorisation := ⟨some "N4", none, .ok chal0⟩

/-- Concrete updated-order body with a certificate URL. -/
def uo0 : UpdatedOrder := ⟨.Valid, some "https://ca/cert/1", ""⟩

/-- Concrete updated order after finalize_order stored nonce N6. -/
def uoC : UpdatedOrder := ⟨.Valid, some "https://ca/cert/1", "N6"⟩

/-- Concrete finalize response carrying nonce N6. -/
def finRespC : HttpResponse UpdatedOrder := ⟨some "N6", none, .ok uo0⟩

/-- Concrete certificate keypair, distinct from the account key key55. -/
def ckC : RsaPrivate × RsaPublic := (⟨77, 7, 43⟩, ⟨77, 7⟩)

/-- Concrete stand-in for the external DER encoder. -/
def derC : X509Req → Bytes := fun _ => [1, 2, 3]

/-- Concrete account-creation response used by the C1 evaluation: replay
nonce NA, Location header a distinct URL. -/
def acctRespB : HttpResponse Account := ⟨some "NA", some "https://ca/acct/9", .ok acct0⟩

/-- C1: evaluation of the nonce chain on the code, at the failing input. The
extractor returns its triple in the order (nonce, payload, location): at a
successful account-creation response its first component, which the
create_account call site of acc.rs binds to the name location, is the
replay-nonce NA and not the Location header, and the two differ — so the
create_account step of the source cannot overwrite the stored session nonce
with the response replay-nonce (as written the call site does not even
type-check), breaking the claimed chain at that link. Every other link of
the claim holds in the source and is evaluated here concretely: fetch_dir
seeds the directory nonce from the bootstrap HEAD replay-nonce; the
account-creation and new-order request headers carry the stored directory
and account nonces (the request-building half of create_account is
type-correct in the source; only its result binding is not);
create_new_order stores the response replay-nonce on the order;
fetch_auth_challenges sends the stored order nonce and stores the next
replay-nonce on the challenge; finalize_order signs with exactly the nonce
handed to it from the previous exchange and stores the response replay-nonce
on the updated order. -/
theorem nonce_chain_broken_at_create_account :
    Directory.fetch_dir "https://ca/dir" (.ok dirBody0) headC
      = ([getRequest "https://ca/dir", headRequest "https://ca/newNonce"], .ok dirC)
  ∧ headC.replayNonce = some dirC.nonce
  ∧ (Directory.create_account dirC digest55 key55 "a@b.c" acctRespB).1.map requestHeaderNonce
      = [some (.str dirC.nonce)]
  ∧ extract_payload_location_and_nonce acctRespB = .ok ("NA", acct0, "https://ca/acct/9")
  ∧ acctRespB.location = some "https://ca/acct/9"
  ∧ ("NA" : String) ≠ "https://ca/acct/9"
  ∧ (Account.create_new_order acctC "https://ca/newOrder" digest55 key55 "example.org" none orderRespC).1.map requestHeaderNonce
      = [some (.str acctC.nonce)]
  ∧ (Account.create_new_order acctC "https://ca/newOrder" digest55 key55 "example.org" none orderRespC).2
      = .ok orderC
  ∧ orderRespC.replayNonce = some orderC.nonce
  ∧ (Order.fetch_auth_challenges orderC "https://ca/acct/1" digest55 key55 chalRespC).1.map requestHeaderNonce
      = [some (.str orderC.nonce)]
  ∧ (Order.fetch_auth_challenges orderC "https://ca/acct/1" digest55 key55 chalRespC).2 = .ok chalC
  ∧ chalRespC.replayNonce = some chalC.nonce
  ∧ (Order.finalize_order orderC "https://ca/acct/1" "N5" digest55 key55 ckC "example.org" derC finRespC).1.map requestHeaderNonce
      = [some (.str "N5")]
  ∧ (Order.finalize_order orderC "https://ca/acct/1" "N5" digest55 key55 ckC "example.org" derC finRespC).2
      = .ok uoC
  ∧ finRespC.replayNonce = some uoC.nonce := by
  exact ⟨rfl, rfl, rfl, rfl, rfl, by decide, rfl, rfl, rfl, rfl, rfl, rfl, rfl, rfl, rfl⟩

/-- Counterexample to C4 as stated: at account creation, a response without
a replay-nonce header fails with Error.IncorrectResponse, which is not the
bad-nonce error kind. -/
theorem missing_nonce_not_badnonce_counterexample :
    (Directory.create_account dirC digest55 key55 "a@b.c"
        ⟨none, some "https://ca/acct/1", .ok acct0⟩).2 = .error .IncorrectResponse
  ∧ Error.IncorrectResponse ≠ Error.BadNonce := ⟨rfl, by decide⟩

/-- C4 as amended: a response without a replay-nonce header makes the
operation fail — with Error.BadNonce on the directory nonce bootstrap and
with Error.IncorrectResponse on account creation, order creation, challenge
fetch and finalize — and the requests already issued are all the requests of
that call: no further request follows the failure. -/
theorem missing_nonce_rejected
    (server : String) (d : Directory) (headResp : HttpResponse Unit)
    (digest : Bytes → Nat) (key : RsaPrivate) (email : String)
    (r2 : HttpResponse Account) (acc : Account) (new_order_url domain : String)
    (ocsr : Option X509Req) (r3 : HttpResponse Order) (ord : Order)
    (account_url : String) (r4 : HttpResponse ChallengeAuthorisation)
    (u : String) (rest : List String) (new_nonce : Nonce)
    (ck : RsaPrivate × RsaPublic) (der : X509Req → Bytes)
    (r5 : HttpResponse UpdatedOrder) :
    (headResp.replayNonce = none →
      Directory.fetch_dir server (.ok d) headResp
        = ([getRequest server, headRequest d.new_nonce], .error .BadNonce))
  ∧ (r2.replayNonce = none →
      (Directory.create_account d digest key email r2).2 = .error .IncorrectResponse
      ∧ (Directory.create_account d digest key email r2).1.length = 1)
  ∧ (r3.replayNonce = none →
      (Account.create_new_order acc new_order_url digest key domain ocsr r3).2
          = .error .IncorrectResponse
      ∧ (Account.create_new_order acc new_order_url digest key domain ocsr r3).1.length = 1)
  ∧ (ord.authorizations = u :: rest → r4.replayNonce = none →
      (Order.fetch_auth_challenges ord account_url digest key r4).2
          = .error .IncorrectResponse
      ∧ (Order.fetch_auth_challenges ord account_url digest key r4).1.length = 1)
  ∧ (r5.replayNonce = none →
      (Order.finalize_order ord account_url new_nonce digest key ck domain der r5).2
          = .error .IncorrectResponse
      ∧ (Order.finalize_order ord account_url new_nonce digest key ck domain der r5).1.length = 1) := by
  refine ⟨?_, ?_, ?_, ?_, ?_⟩
  · intro h
    simp [Directory.fetch_dir, h]
  · intro h
    exact ⟨by simp [Directory.create_account, extract_payload_location_and_nonce, h], rfl⟩
  · intro h
    exact ⟨by simp [Account.create_new_order, extract_payload_and_nonce, h], rfl⟩
  · intro ha h
    refine ⟨?_, ?_⟩
    · simp [Order.fetch_auth_challenges, extract_payload_and_nonce, ha, h]
    · simp [Order.fetch_auth_challenges, ha]
  · intro h
    exact ⟨by simp [Order.finalize_order, extract_payload_and_nonce, h], rfl⟩

/-- Witness for the amended C4 on concrete nonce-less responses. -/
theorem missing_nonce_rejected_witness :
    Directory.fetch_dir "https://ca/dir" (.ok dirBody0) ⟨none, none, .ok ()⟩
        = ([getRequest "https://ca/dir", headRequest dirBody0.new_nonce], .error .BadNonce)
  ∧ ((Directory.create_account dirC digest55 key55 "a@b.c" ⟨none, none, .ok acct0⟩).2
          = .error .IncorrectResponse
      ∧ (Directory.create_account dirC digest55 key55 "a@b.c" ⟨none, none, .ok acct0⟩).1.length = 1)
  ∧ ((Account.create_new_order acctC "https://ca/newOrder" digest55 key55 "example.org" none
          ⟨none, none, .ok order0⟩).2 = .error .IncorrectResponse
      ∧ (Account.create_new_order acctC "https://ca/newOrder" digest55 key55 "example.org" none
          ⟨none, none, .ok order0⟩).1.length = 1)
  ∧ ((Order.fetch_auth_challenges orderC "https://ca/acct/1" digest55 key55
          ⟨none, none, .ok chal0⟩).2 = .error .IncorrectResponse
      ∧ (Order.fetch_auth_challenges orderC "https://ca/acct/1" digest55 key55
          ⟨none, none, .ok chal0⟩).1.length = 1)
  ∧ ((Order.finalize_order orderC "https://ca/acct/1" "N5" digest55 key55 ckC "example.org" derC
          ⟨none, none, .ok uo0⟩).2 = .error .IncorrectResponse
      ∧ (Order.finalize_order orderC "https://ca/acct/1" "N5" digest55 key55 ckC "example.org" derC
          ⟨none, none, .ok uo0⟩).1.length = 1) := by
  have h := missing_nonce_rejected "https://ca/dir" dirBody0 ⟨none, none, .ok ()⟩
    digest55 key55 "a@b.c" ⟨none, none, .ok acct0⟩ acctC "https://ca/newOrder" "example.org"
    none ⟨none, none, .ok order0⟩ orderC "https://ca/acct/1" ⟨none, none, .ok chal0⟩
    "https://ca/authz/1" ["https://ca/authz/2"] "N5" ckC derC ⟨none, none, .ok uo0⟩
  refine ⟨h.1 rfl, ?_, h.2.2.1 rfl, h.2.2.2.1 rfl rfl, h.2.2.2.2 rfl⟩
  have h2 := missing_nonce_rejected "https://ca/dir" dirC ⟨none, none, .ok ()⟩
    digest55 key55 "a@b.c" ⟨none, none, .ok acct0⟩ acctC "https://ca/newOrder" "example.org"
    none ⟨none, none, .ok order0⟩ orderC "https://ca/acct/1" ⟨none, none, .ok chal0⟩
    "https://ca/authz/1" ["https://ca/authz/2"] "N5" ckC derC ⟨none, none, .ok uo0⟩
  exact h2.2.1 rfl

/-- C5 evaluation at a failing input: the extractor of util.rs returns its
triple in the order (nonce, payload, location), so the source pattern
(location, nonce, account) of create_account binds the name location to the
replay-nonce component N2 and not to the Location header value; the two
differ on this input (and the pattern type annotation does not type-check
against the extractor result at all). -/
theorem create_account_binding_mismatch :
    extract_payload_location_and_nonce acctRespC = .ok ("N2", acct0, "https://ca/acct/1")
  ∧ acctRespC.location = some "https://ca/acct/1"
  ∧ "N2" ≠ "https://ca/acct/1" := ⟨rfl, rfl, by decide⟩

/-- C7: fetch_auth_challenges sends exactly one POST-as-GET, an empty-payload
JWS whose header carries the account URL as kid and the stored order nonce,
to the first URL of the authorizations list, whatever the rest of the list
holds. -/
theorem fetch_auth_first_only (ord : Order) (account_url : String) (digest : Bytes → Nat)
    (key : RsaPrivate) (resp : HttpResponse ChallengeAuthorisation)
    (u : String) (rest : List String) (h : ord.authorizations = u :: rest) :
    (Order.fetch_auth_challenges ord account_url digest key resp).1
      = [postJws u digest (Json.str "")
          (Json.obj [("alg", .str "RS256"), ("url", .str u), ("kid", .str account_url),
                     ("nonce", .str ord.nonce)]) key none] := by
  simp [Order.fetch_auth_challenges, h]

/-- Witness for C7 on the concrete order with two authorization URLs. -/
theorem fetch_auth_first_only_witness :
    (Order.fetch_auth_challenges orderC "https://ca/acct/1" digest55 key55 chalRespC).1
      = [postJws "https://ca/authz/1" digest55 (Json.str "")
          (Json.obj [("alg", .str "RS256"), ("url", .str "https://ca/authz/1"),
                     ("kid", .str "https://ca/acct/1"),
                     ("nonce", .str orderC.nonce)]) key55 none] :=
  fetch_auth_first_only orderC "https://ca/acct/1" digest55 key55 chalRespC
    "https://ca/authz/1" ["https://ca/authz/2"] rfl

/-- C8: finalize_order issues exactly one POST to the finalize URL of the
order, with Accept application/pem-certificate-chain, signing a payload that
is the single-field object csr holding the base64url of the DER bytes of
the CSR, where the CSR is the pre-supplied one when the order carries one
and otherwise the freshly built request whose subject common name is the
domain, whose public key is the public half of the certificate keypair,
signed with the private half under SHA-256. -/
theorem finalize_order_request_spec (ord : Order) (account_url : String) (new_nonce : Nonce)
    (digest : Bytes → Nat) (key : RsaPrivate) (ck : RsaPrivate × RsaPublic)
    (domain : String) (der : X509Req → Bytes) (resp : HttpResponse UpdatedOrder) :
    (Order.finalize_order ord account_url new_nonce digest key ck domain der resp).1
      = [postJws ord.finalize digest
          (Json.obj [("csr", .str (b64 (der (ord.optional_csr.getD (Order.request_csr ck domain)))))])
          (Json.obj [("alg", .str "RS256"), ("url", .str ord.finalize),
                     ("kid", .str account_url), ("nonce", .str new_nonce)])
          key (some "application/pem-certificate-chain")]
  ∧ Order.request_csr ck domain = ⟨domain, ck.2, ck.1, "sha256"⟩ := by
  constructor
  · cases h : ord.optional_csr <;> simp [Order.finalize_order, h, Option.getD]
  · rfl

/-- Bound on the requests of fetch_dir: at most the directory GET and the
nonce HEAD. -/
theorem fetch_dir_len (u : String) (b : Except Error Directory) (h : HttpResponse Unit) :
    (Directory.fetch_dir u b h).1.length ≤ 2 := by
  cases b <;> simp [Directory.fetch_dir]

/-- Bound on the requests of fetch_auth_challenges: at most one POST. -/
theorem fetch_auth_len (ord : Order) (au : String) (dg : Bytes → Nat) (k : RsaPrivate)
    (r : HttpResponse ChallengeAuthorisation) :
    (Order.fetch_auth_challenges ord au dg k r).1.length ≤ 1 := by
  cases h : ord.authorizations <;> simp [Order.fetch_auth_challenges, h]

/-- Bound on the requests of download_certificate: at most one POST. -/
theorem download_len (uo : UpdatedOrder) (au : String) (dg : Bytes → Nat) (k : RsaPrivate)
    (r : Except Error Certificate) :
    (download_certificate uo au dg k r).1.length ≤ 1 := by
  cases h : uo.certificate <;> simp [download_certificate, h]

/-- Helper: the whole driver issues at most eight requests on any script, one
per protocol step (two for the directory bootstrap), so no step is ever
retried. -/
theorem driver_request_bound (ck : RsaPrivate × RsaPublic) (ocsr : Option X509Req)
    (domain server email : String) (fk : RsaPrivate) (dg : Bytes → Nat)
    (der : X509Req → Bytes) (s : SessionScript) :
    (generate_certificate_for_domain ck ocsr domain server email fk dg der s).1.length ≤ 8 := by
  simp only [generate_certificate_for_domain, Directory.fetch_dir, Directory.create_account,
    Account.create_new_order, Order.fetch_auth_challenges, solve_http_challenge,
    Order.finalize_order, download_certificate, extract_payload_and_nonce,
    extract_payload_location_and_nonce]
  repeat' split
  all_goals simp only [List.length_append, List.length_cons, List.length_nil]
  all_goals omega

/-- C6 as amended: the driver performs no retry of any kind — it issues at
most one request per protocol step on every script — and every failure,
including a bad-nonce failure, propagates immediately to the caller of the
failing step: a failed directory GET is returned at once with only that
request issued, and a bootstrap HEAD without a replay-nonce returns
Error.BadNonce at once with no nonce re-fetch and no retried request. -/
theorem driver_no_retry_policy (ck : RsaPrivate × RsaPublic) (ocsr : Option X509Req)
    (domain server email : String) (fk : RsaPrivate) (dg : Bytes → Nat)
    (der : X509Req → Bytes) (s : SessionScript) (e : Error) (d : Directory) :
    (generate_certificate_for_domain ck ocsr domain server email fk dg der s).1.length ≤ 8
  ∧ (s.dirBody = .error e →
      generate_certificate_for_domain ck ocsr domain server email fk dg der s
        = ([getRequest server], .error e))
  ∧ (s.dirBody = .ok d → s.nonceHead.replayNonce = none →
      generate_certificate_for_domain ck ocsr domain server email fk dg der s
        = ([getRequest server, headRequest d.new_nonce], .error .BadNonce)) := by
  refine ⟨driver_request_bound ck ocsr domain server email fk dg der s, ?_, ?_⟩
  · intro h
    simp [generate_certificate_for_domain, Directory.fetch_dir, h]
  · intro h hn
    simp [generate_certificate_for_domain, Directory.fetch_dir, h, hn]

/-- Counterexample to C6 as stated: a session whose bootstrap HEAD carries no
replay-nonce fails with the bad-nonce error kind after exactly the two
bootstrap requests; the driver issues no nonce re-fetch and no retry of the
failed exchange, contradicting the claimed sanctioned retry path. -/
theorem driver_badnonce_no_refetch_counterexample :
    generate_certificate_for_domain ckC none "example.org" "https://ca/dir" "a@b.c"
        key55 digest55 derC
        ⟨.ok dirBody0, ⟨none, none, .ok ()⟩, acctRespC, orderRespC, chalRespC,
          ⟨some "N5", none, .ok ()⟩, finRespC, .ok "CERT"⟩
      = ([getRequest "https://ca/dir", headRequest "https://ca/newNonce"],
          .error .BadNonce) := rfl

/-- Witness for the amended C6 on concrete failing sessions. -/
theorem driver_no_retry_policy_witness :
    (generate_certificate_for_domain ckC none "example.org" "https://ca/dir" "a@b.c"
        key55 digest55 derC
        ⟨.error .FromReqwestError, headC, acctRespC, orderRespC, chalRespC,
          ⟨some "N5", none, .ok ()⟩, finRespC, .ok "CERT"⟩).1.length ≤ 8
  ∧ generate_certificate_for_domain ckC none "example.org" "https://ca/dir" "a@b.c"
        key55 digest55 derC
        ⟨.error .FromReqwestError, headC, acctRespC, orderRespC, chalRespC,
          ⟨some "N5", none, .ok ()⟩, finRespC, .ok "CERT"⟩
      = ([getRequest "https://ca/dir"], .error .FromReqwestError)
  ∧ generate_certificate_for_domain ckC none "example.org" "https://ca/dir" "a@b.c"
        key55 digest55 derC
        ⟨.ok dirBody0, ⟨none, none, .ok ()⟩, acctRespC, orderRespC, chalRespC,
          ⟨some "N5", none, .ok ()⟩, finRespC, .ok "CERT"⟩
      = ([getRequest "https://ca/dir", headRequest dirBody0.new_nonce],
          .error .BadNonce) := by
  have h1 := driver_no_retry_policy ckC none "example.org" "https://ca/dir" "a@b.c"
    key55 digest55 derC
    ⟨.error .FromReqwestError, headC, acctRespC, orderRespC, chalRespC,
      ⟨some "N5", none, .ok ()⟩, finRespC, .ok "CERT"⟩ .FromReqwestError dirBody0
  have h2 := driver_no_retry_policy ckC none "example.org" "https://ca/dir" "a@b.c"
    key55 digest55 derC
    ⟨.ok dirBody0, ⟨none, none, .ok ()⟩, acctRespC, orderRespC, chalRespC,
      ⟨some "N5", none, .ok ()⟩, finRespC, .ok "CERT"⟩ .FromReqwestError dirBody0
  exact ⟨h1.1, h1.2.1 rfl, h2.2.2 rfl rfl⟩

/-- Json equality of the jwk object with itself holds under beq. -/
theorem jwk_beq_self (k : RsaPrivate) : Json.beq (jwk k) (jwk k) = true := by
  simp [jwk, Json.beq, Json.beqFields]

/-- The jwk field of the account-creation header is the jwk of the signing
key. -/
theorem jsonGet_jwk_header (u n : String) (k : RsaPrivate) :
    jsonGet (Json.obj [("alg", .str "RS256"), ("url", .str u), ("jwk", jwk k),
      ("nonce", .str n)]) "jwk" = some (jwk k) := rfl

/-- Kid-style headers carry no jwk field. -/
theorem jsonGet_kid_header_jwk (u kid n : String) :
    jsonGet (Json.obj [("alg", .str "RS256"), ("url", .str u), ("kid", .str kid),
      ("nonce", .str n)]) "jwk" = none := rfl

/-- C10: every request of a session that carries a signature at all is signed
with the account key generated at the start of the call (never with the
caller-supplied certificate keypair, which enters no signedWith field and no
header), the only jwk ever placed in a JWS header is the jwk of that fresh
account key, and the width passed to the key generator is the KEY_WIDTH
constant 2048. -/
theorem session_key_usage (ck : RsaPrivate × RsaPublic) (ocsr : Option X509Req)
    (domain server email : String) (freshKey : RsaPrivate) (dg : Bytes → Nat)
    (der : X509Req → Bytes) (s : SessionScript) :
    ((generate_certificate_for_domain ck ocsr domain server email freshKey dg der s).1.all
      (fun r => match r.signedWith with
        | none => true
        | some k => decide (k = freshKey))) = true
  ∧ ((generate_certificate_for_domain ck ocsr domain server email freshKey dg der s).1.all
      (fun r => match r.jwsHeader with
        | none => true
        | some h => match jsonGet h "jwk" with
          | none => true
          | some j => Json.beq j (jwk freshKey))) = true
  ∧ KEY_WIDTH = 2048 := by
  refine ⟨?_, ?_, rfl⟩
  · simp only [generate_certificate_for_domain, Directory.fetch_dir, Directory.create_account,
      Account.create_new_order, Order.fetch_auth_challenges, solve_http_challenge,
      Order.finalize_order, download_certificate, extract_payload_and_nonce,
      extract_payload_location_and_nonce, postJws, getRequest, headRequest]
    repeat' split
    all_goals simp
  · simp only [generate_certificate_for_domain, Directory.fetch_dir, Directory.create_account,
      Account.create_new_order, Order.fetch_auth_challenges, solve_http_challenge,
      Order.finalize_order, download_certificate, extract_payload_and_nonce,
      extract_payload_location_and_nonce, postJws, getRequest, headRequest]
    repeat' split
    all_goals simp [jsonGet_jwk_header, jsonGet_kid_header_jwk, jwk_beq_self]

/-- Concrete challenge-readiness response carrying nonce N5. -/
def solveRespC : HttpResponse Unit := ⟨some "N5", none, .ok ()⟩

/-- Concrete PEM chain: a two-line leaf, an empty separator line, then the
rest of the chain. -/
def chainC : Certificate := "AAA\nBBB\n\nCCC\n"

/-- Script of a fully successful session. -/
def scriptOK : SessionScript :=
  ⟨.ok dirBody0, headC, acctRespC, orderRespC, chalRespC, solveRespC, finRespC, .ok chainC⟩

/-- Script of a session failing at the nonce bootstrap. -/
def scriptBad : SessionScript :=
  ⟨.ok dirBody0, ⟨none, none, .ok ()⟩, acctRespC, orderRespC, chalRespC, solveRespC,
    finRespC, .ok chainC⟩

/-- Arguments with no key material supplied. -/
def argsGen : Args :=
  ⟨"a@b.c", "example.org", none, none, some "https://ca/dir", false, none, false⟩

/-- Arguments with an existing keypair supplied. -/
def argsLoad : Args :=
  ⟨"a@b.c", "example.org", some "priv-path", some "pub-path", some "https://ca/dir",
    false, none, false⟩

/-- Concrete stand-in for the private-key PEM encoder. -/
def privPemC : RsaPrivate → String := fun _ => "PRIVPEM"

/-- Concrete stand-in for the public-key PEM encoder. -/
def pubPemC : RsaPublic → String := fun _ => "PUBPEM"

/-- C9: persistence of bin.rs main. With valid arguments, when the issuance
flow succeeds the program writes exactly the two certificate files —
my_cert.crt holding the lines of the chain up to the first empty line and
cert_chain.crt holding the chain verbatim — followed by the private and
public key files exactly when no existing public key was supplied; when the
issuance flow fails the run panics out of its expect with no file written. -/
theorem persistence_spec (args : Args)
    (loadedKeys generatedKeys : Except Error (RsaPrivate × RsaPublic))
    (loadedCsr : Except Error X509Req) (portBound : Bool)
    (freshKey : RsaPrivate) (dg : Bytes → Nat) (der : X509Req → Bytes)
    (privPem : RsaPrivate → String) (pubPem : RsaPublic → String)
    (script : SessionScript) (kp : RsaPrivate × RsaPublic)
    (chain : Certificate) (e : Error) (server p q : String)
    (hcsr : args.csr_path = none)
    (hsb : (args.standalone && portBound) = false)
    (hs : args.server = some server) :
    (args.private_key = none → args.public_key = none → generatedKeys = .ok kp →
      ((generate_certificate_for_domain kp none args.domain server args.email
          freshKey dg der script).2 = .ok chain →
        bin_main args loadedKeys generatedKeys loadedCsr portBound freshKey dg der
            privPem pubPem script
          = (.finished,
              [("my_cert.crt", String.join
                  (((rustLines chain).takeWhile (fun line => line != "")).map
                    (fun line => line ++ "\r\n"))),
               ("cert_chain.crt", chain),
               ("priv.pem", privPem kp.1), ("pub.pem", pubPem kp.2)]))
      ∧ ((generate_certificate_for_domain kp none args.domain server args.email
          freshKey dg der script).2 = .error e →
        bin_main args loadedKeys generatedKeys loadedCsr portBound freshKey dg der
            privPem pubPem script = (.panicked, [])))
  ∧ (args.private_key = some p → args.public_key = some q → loadedKeys = .ok kp →
      ((generate_certificate_for_domain kp none args.domain server args.email
          freshKey dg der script).2 = .ok chain →
        bin_main args loadedKeys generatedKeys loadedCsr portBound freshKey dg der
            privPem pubPem script
          = (.finished,
              [("my_cert.crt", String.join
                  (((rustLines chain).takeWhile (fun line => line != "")).map
                    (fun line => line ++ "\r\n"))),
               ("cert_chain.crt", chain)]))
      ∧ ((generate_certificate_for_domain kp none args.domain server args.email
          freshKey dg der script).2 = .error e →
        bin_main args loadedKeys generatedKeys loadedCsr portBound freshKey dg der
            privPem pubPem script = (.panicked, []))) := by
  constructor
  · intro hp hq hgen
    constructor
    · intro hdrv
      simp [bin_main, hcsr, hp, hq, hgen, hsb, hs, hdrv, save_certificates, save_keypair]
    · intro hdrv
      simp [bin_main, hcsr, hp, hq, hgen, hsb, hs, hdrv]
  · intro hp hq hload
    constructor
    · intro hdrv
      simp [bin_main, hcsr, hp, hq, hload, hsb, hs, hdrv, save_certificates, save_keypair]
    · intro hdrv
      simp [bin_main, hcsr, hp, hq, hload, hsb, hs, hdrv]

/-- Witness for C9: a successful and a failing session, once with generated
keys and once with a supplied keypair. -/
theorem persistence_spec_witness :
    bin_main argsGen (.ok ckC) (.ok ckC) (.error .FromIoError) false key55 digest55
        derC privPemC pubPemC scriptOK
      = (.finished,
          [("my_cert.crt", String.join
              (((rustLines chainC).takeWhile (fun line => line != "")).map
                (fun line => line ++ "\r\n"))),
           ("cert_chain.crt", chainC),
           ("priv.pem", privPemC ckC.1), ("pub.pem", pubPemC ckC.2)])
  ∧ bin_main argsGen (.ok ckC) (.ok ckC) (.error .FromIoError) false key55 digest55
        derC privPemC pubPemC scriptBad = (.panicked, [])
  ∧ bin_main argsLoad (.ok ckC) (.ok ckC) (.error .FromIoError) false key55 digest55
        derC privPemC pubPemC scriptOK
      = (.finished,
          [("my_cert.crt", String.join
              (((rustLines chainC).takeWhile (fun line => line != "")).map
                (fun line => line ++ "\r\n"))),
           ("cert_chain.crt", chainC)])
  ∧ bin_main argsLoad (.ok ckC) (.ok ckC) (.error .FromIoError) false key55 digest55
        derC privPemC pubPemC scriptBad = (.panicked, []) := by
  have h1 := persistence_spec argsGen (.ok ckC) (.ok ckC) (.error .FromIoError) false
    key55 digest55 derC privPemC pubPemC scriptOK ckC chainC .BadNonce
    "https://ca/dir" "priv-path" "pub-path" rfl rfl rfl
  have h2 := persistence_spec argsGen (.ok ckC) (.ok ckC) (.error .FromIoError) false
    key55 digest55 derC privPemC pubPemC scriptBad ckC chainC .BadNonce
    "https://ca/dir" "priv-path" "pub-path" rfl rfl rfl
  have h3 := persistence_spec argsLoad (.ok ckC) (.ok ckC) (.error .FromIoError) false
    key55 digest55 derC privPemC pubPemC scriptOK ckC chainC .BadNonce
    "https://ca/dir" "priv-path" "pub-path" rfl rfl rfl
  have h4 := persistence_spec argsLoad (.ok ckC) (.ok ckC) (.error .FromIoError) false
    key55 digest55 derC privPemC pubPemC scriptBad ckC chainC .BadNonce
    "https://ca/dir" "priv-path" "pub-path" rfl rfl rfl
  exact ⟨(h1.1 rfl rfl rfl).1 rfl, (h2.1 rfl rfl rfl).2 rfl,
    (h3.2 rfl rfl rfl).1 rfl, (h4.2 rfl rfl rfl).2 rfl⟩
